import Mathlib

/-!
Verification of a small event-driven file-processing pipeline.

The repository has two parts:
* a Lambda handler (`lambda/processor.ts`): validates an incoming S3
  event, writes a metadata item to a DynamoDB table, sends a message to
  an SQS queue, and returns an HTTP-style response;
* a CDK stack (`MySmallProjectStack`): declares the bucket, queue,
  table, Lambda function and API gateway, and wires them together.

The handler is embedded as a pure function from the event, the
environment variables, the current timestamp and an oracle for the
outcomes of the two external calls, to the response together with the
trace of external effects it performed.  The stack is embedded as a
record of the declared wiring, one field per configured connection.
-/

/-- The `s3.object` part of an S3 event record: `key : string`,
`size : number`. -/
structure S3ObjectInfo where
  key : String
  size : Nat
deriving Repr, DecidableEq

/-- The `s3` part of an S3 event record. -/
structure S3Detail where
  object : S3ObjectInfo
deriving Repr, DecidableEq

/-- One record of an S3 event. -/
structure S3EventRecord where
  s3 : S3Detail
deriving Repr, DecidableEq

/-- An S3 event as the handler sees it.  `Records` is optional: the
source guards with the optional chain `event.Records?.length`, so a
missing list and an empty list are both treated as malformed. -/
structure S3Event where
  Records : Option (List S3EventRecord)
deriving Repr, DecidableEq

/-- The response shape `LambdaResponse` of the source:
`statusCode : number`, `body : string`. -/
structure LambdaResponse where
  statusCode : Nat
  body : String
deriving Repr, DecidableEq

/-- A DynamoDB attribute value: `S` holds a string, `N` holds the
decimal string of a number (DynamoDB numbers travel as strings). -/
inductive AttrValue where
  | S (s : String)
  | N (n : String)
deriving Repr, DecidableEq

/-- A DynamoDB item, as JavaScript builds it: an ordered list of
(attribute name, attribute value) pairs. -/
abbrev DynamoItem := List (String × AttrValue)

/-- The environment variables the CDK stack injects into the Lambda. -/
structure LambdaEnv where
  TABLE_NAME : String
  QUEUE_URL : String
deriving Repr, DecidableEq

/-- One external effect of the handler: a successful DynamoDB
`PutItemCommand` or a successful SQS `SendMessageCommand`. -/
inductive Effect where
  | putItem (tableName : String) (item : DynamoItem)
  | sendMessage (queueUrl : String) (body : String)
deriving Repr, DecidableEq

/-- Outcomes of the two awaited external calls: `true` means the call
succeeds, `false` means it throws (caught by the handler's `catch`). -/
structure CallOutcomes where
  dynamoOk : Bool
  sqsOk : Bool
deriving Repr, DecidableEq

/-- JSON escaping of one character, as `JSON.stringify` does for the
characters that can occur here. -/
def jsonEscapeChar (c : Char) : String :=
  if c = '"' then "\\\""
  else if c = '\\' then "\\\\"
  else if c = '\n' then "\\n"
  else if c = '\r' then "\\r"
  else if c = '\t' then "\\t"
  else String.singleton c

/-- JSON escaping of a string: each character escaped in turn. -/
def jsonEscape (s : String) : String :=
  String.join (s.data.map jsonEscapeChar)

/-- A JSON string literal: quotes around the escaped text. -/
def jsonStr (s : String) : String :=
  "\"" ++ jsonEscape s ++ "\""

/-- `JSON.stringify` of one attribute value, e.g. `\x7b"S":"abc"\x7d`. -/
def jsonOfAttr : AttrValue → String
  | AttrValue.S s => "\x7b\"S\":" ++ jsonStr s ++ "\x7d"
  | AttrValue.N n => "\x7b\"N\":" ++ jsonStr n ++ "\x7d"

/-- `JSON.stringify` of a DynamoDB item: keys in insertion order. -/
def jsonOfItem (item : DynamoItem) : String :=
  "\x7b" ++ String.intercalate ","
    (item.map (fun p => jsonStr p.1 ++ ":" ++ jsonOfAttr p.2)) ++ "\x7d"

/-- Body of the 400 response:
`JSON.stringify(\x7b error: "Invalid event" \x7d)`. -/
def invalidEventBody : String :=
  "\x7b\"error\":\"Invalid event\"\x7d"

/-- Body of the 200 response:
`JSON.stringify(\x7b success: true, fileId \x7d)`. -/
def successBody (fileId : String) : String :=
  "\x7b\"success\":true,\"fileId\":" ++ jsonStr fileId ++ "\x7d"

/-- Body of the 500 response:
`JSON.stringify(\x7b error: "Internal error", requestId: fileId \x7d)`. -/
def internalErrorBody (fileId : String) : String :=
  "\x7b\"error\":\"Internal error\",\"requestId\":" ++ jsonStr fileId ++ "\x7d"

/-- The `metadata` object the handler builds from the first record:
`fileId`, `status` (the literal `PROCESSED`), `timestamp` (the current
time in ISO form, passed in as `now`), and `size` (the object size as a
decimal string, `String(record.s3.object.size)`). -/
def metadataItem (now : String) (record : S3EventRecord) : DynamoItem :=
  [ ("fileId", AttrValue.S record.s3.object.key)
  , ("status", AttrValue.S "PROCESSED")
  , ("timestamp", AttrValue.S now)
  , ("size", AttrValue.N (toString record.s3.object.size)) ]

/-- The Lambda handler of `lambda/processor.ts`.

* `env` carries the `TABLE_NAME` and `QUEUE_URL` environment variables;
* `now` is the value of `new Date().toISOString()`;
* `oc` says whether each awaited external call succeeds or throws;
* the result is the returned `LambdaResponse` together with the ordered
  trace of external effects that completed before the return.

Control flow follows the source line by line: the `Records` guard
returns 400 with no effects; otherwise the first record is taken, the
metadata item built, the DynamoDB put awaited, the SQS send awaited,
and 200 returned; if either await throws, the single `catch` returns
the 500 response built from `fileId`. -/
def handler (env : LambdaEnv) (now : String) (oc : CallOutcomes)
    (event : S3Event) : LambdaResponse × List Effect :=
  match event.Records with
  | none => ({ statusCode := 400, body := invalidEventBody }, [])
  | some [] => ({ statusCode := 400, body := invalidEventBody }, [])
  | some (record :: _) =>
    let fileId := record.s3.object.key
    let metadata := metadataItem now record
    if oc.dynamoOk then
      if oc.sqsOk then
        ({ statusCode := 200, body := successBody fileId },
         [ Effect.putItem env.TABLE_NAME metadata
         , Effect.sendMessage env.QUEUE_URL (jsonOfItem metadata) ])
      else
        ({ statusCode := 500, body := internalErrorBody fileId },
         [ Effect.putItem env.TABLE_NAME metadata ])
    else
      ({ statusCode := 500, body := internalErrorBody fileId }, [])

/-- `true` on a DynamoDB put effect. -/
def isPutEffect : Effect → Bool
  | Effect.putItem _ _ => true
  | Effect.sendMessage _ _ => false

/-- `true` on an SQS send effect. -/
def isSendEffect : Effect → Bool
  | Effect.putItem _ _ => false
  | Effect.sendMessage _ _ => true

/-- The bodies of the messages sent to the queue, in order. -/
def sentBodies (effs : List Effect) : List String :=
  effs.filterMap fun e =>
    match e with
    | Effect.sendMessage _ b => some b
    | Effect.putItem _ _ => none

/-- The items written to the table, in order. -/
def putItems (effs : List Effect) : List DynamoItem :=
  effs.filterMap fun e =>
    match e with
    | Effect.putItem _ it => some it
    | Effect.sendMessage _ _ => none

/-- A way the deployed configuration can invoke the Lambda function. -/
inductive LambdaTrigger where
  | sqsQueue (queueId : String)
  | apiGatewayRoute (method : String) (path : String)
deriving Repr, DecidableEq

/-- `true` on a queue-driven trigger. -/
def isQueueTrigger : LambdaTrigger → Bool
  | LambdaTrigger.sqsQueue _ => true
  | LambdaTrigger.apiGatewayRoute _ _ => false

/-- The declarative wiring of a deployed stack:
* `bucketNotifications`: each `addEventNotification` call on the upload
  bucket, as (event type, destination queue construct id);
* `lambdaTriggers`: every configured way the processing Lambda can be
  invoked;
* `apiRoutes`: each gateway route, as (HTTP method, path, construct id
  of the integrated Lambda). -/
structure StackModel where
  bucketNotifications : List (String × String)
  lambdaTriggers : List LambdaTrigger
  apiRoutes : List (String × String × String)
deriving Repr, DecidableEq

/-- The wiring `MySmallProjectStack` declares, construct by construct:
* `uploadBucket.addEventNotification(OBJECT_CREATED,
  SqsDestination(notificationQueue))` appears twice in the source
  (steps 2 and 6), giving two identical notification entries;
* the Lambda `LambdaProcessingTheFile` has no SQS event source and no
  other event source mapping; the only configured invocation path is
  the gateway integration, so its trigger list holds exactly the
  `GET /files/\x7bfileId\x7d` route;
* the gateway declares one route, `GET /files/\x7bfileId\x7d`,
  integrated with `LambdaProcessingTheFile` itself. -/
def mySmallProjectStack : StackModel :=
  { bucketNotifications :=
      [ ("OBJECT_CREATED", "NotificationQueue")
      , ("OBJECT_CREATED", "NotificationQueue") ]
  , lambdaTriggers :=
      [ LambdaTrigger.apiGatewayRoute "GET" "/files/\x7bfileId\x7d" ]
  , apiRoutes :=
      [ ("GET", "/files/\x7bfileId\x7d", "LambdaProcessingTheFile") ] }

/-- An API gateway proxy request event, as the integrated handler
receives it for `GET /files/\x7bfileId\x7d`: it has no `Records`
field, so under the handler's `S3Event` view `Records` is absent. -/
def gatewayGetEvent : S3Event := { Records := none }

/-- Bool test: a put effect carries exactly the fields `fileId`,
`status`, `timestamp`, `size`, and the partition key `fileId` is
present; send effects pass vacuously. -/
def putItemHasExactFields : Effect → Bool
  | Effect.putItem _ item =>
      (item.map Prod.fst == ["fileId", "status", "timestamp", "size"])
        && (item.lookup "fileId").isSome
  | Effect.sendMessage _ _ => true

/-- C1: for every well-formed S3 event (non-empty `Records`), on the
success path the handler performs exactly one table write and exactly
one queue send before returning its 200 response. -/
theorem handler_success_one_put_one_send (env : LambdaEnv) (now : String)
    (record : S3EventRecord) (rest : List S3EventRecord) :
    (handler env now ⟨true, true⟩ ⟨some (record :: rest)⟩).1.statusCode = 200 ∧
    ((handler env now ⟨true, true⟩ ⟨some (record :: rest)⟩).2.countP isPutEffect) = 1 ∧
    ((handler env now ⟨true, true⟩ ⟨some (record :: rest)⟩).2.countP isSendEffect) = 1 :=
  ⟨rfl, rfl, rfl⟩

/-- C2: for every malformed event (`Records` missing or empty), the
handler returns a response with status code 400, whatever the
environment, the clock and the call outcomes. -/
theorem handler_malformed_returns_400 (env : LambdaEnv) (now : String)
    (oc : CallOutcomes) :
    (handler env now oc ⟨none⟩).1.statusCode = 400 ∧
    (handler env now oc ⟨some []⟩).1.statusCode = 400 :=
  ⟨rfl, rfl⟩

/-- C3: the deployed wiring of `MySmallProjectStack` is not connected
end to end: the bucket does notify the queue on object creation, but
the Lambda has no queue-driven trigger at all; its only configured
trigger is the gateway GET route, so the notification never invokes
the compute function. -/
theorem pipeline_not_connected_end_to_end :
    mySmallProjectStack.bucketNotifications.contains
        ("OBJECT_CREATED", "NotificationQueue") = true ∧
    mySmallProjectStack.lambdaTriggers.all (fun t => !isQueueTrigger t) = true ∧
    mySmallProjectStack.lambdaTriggers =
      [LambdaTrigger.apiGatewayRoute "GET" "/files/\x7bfileId\x7d"] :=
  ⟨rfl, rfl, rfl⟩

/-- C4: the gateway GET route is integrated with the file-processing
Lambda itself, and that handler, given a gateway proxy event (which
has no `Records`), returns 400 and performs no external call: the
route never reads the table and never returns stored metadata. -/
theorem get_route_runs_processor_which_rejects :
    mySmallProjectStack.apiRoutes =
      [("GET", "/files/\x7bfileId\x7d", "LambdaProcessingTheFile")] ∧
    ∀ (env : LambdaEnv) (now : String) (oc : CallOutcomes),
      handler env now oc gatewayGetEvent =
        ({ statusCode := 400, body := invalidEventBody }, []) :=
  ⟨rfl, fun _ _ _ => rfl⟩

/-- C5 counterexample: the 500 response produced by the catch is not
identical regardless of the input: two events whose object keys differ
yield different 500 bodies (the body carries the file identifier as
`requestId`). -/
theorem catch_response_varies_with_input :
    (handler ⟨"T", "Q"⟩ "2024-01-01T00:00:00.000Z" ⟨false, false⟩
        ⟨some [⟨⟨⟨"a.txt", 1⟩⟩⟩]⟩).1.statusCode = 500 ∧
    (handler ⟨"T", "Q"⟩ "2024-01-01T00:00:00.000Z" ⟨false, false⟩
        ⟨some [⟨⟨⟨"b.txt", 1⟩⟩⟩]⟩).1.statusCode = 500 ∧
    (handler ⟨"T", "Q"⟩ "2024-01-01T00:00:00.000Z" ⟨false, false⟩
        ⟨some [⟨⟨⟨"a.txt", 1⟩⟩⟩]⟩).1 ≠
      (handler ⟨"T", "Q"⟩ "2024-01-01T00:00:00.000Z" ⟨false, false⟩
        ⟨some [⟨⟨⟨"b.txt", 1⟩⟩⟩]⟩).1 := by
  refine ⟨rfl, rfl, ?_⟩
  decide

/-- C5 (amended): whenever any external call in the try block fails,
the single generic catch produces a 500 response that is independent
of which call failed and of the error value, depending only on the
first record's object key, which it embeds as `requestId`. -/
theorem catch_fixed_500_per_file (env : LambdaEnv) (now : String)
    (record : S3EventRecord) (rest : List S3EventRecord) (b : Bool) :
    (handler env now ⟨false, b⟩ ⟨some (record :: rest)⟩).1 =
      { statusCode := 500, body := internalErrorBody record.s3.object.key } ∧
    (handler env now ⟨true, false⟩ ⟨some (record :: rest)⟩).1 =
      { statusCode := 500, body := internalErrorBody record.s3.object.key } :=
  ⟨rfl, rfl⟩

/-- C6: for every well-formed event, on the success path the effect
trace is exactly the table write followed by the queue send, and the
response is the 200 success response: a linear sequence in that
order. -/
theorem handler_effects_linear_order (env : LambdaEnv) (now : String)
    (record : S3EventRecord) (rest : List S3EventRecord) :
    handler env now ⟨true, true⟩ ⟨some (record :: rest)⟩ =
      ({ statusCode := 200, body := successBody record.s3.object.key },
       [ Effect.putItem env.TABLE_NAME (metadataItem now record)
       , Effect.sendMessage env.QUEUE_URL
           (jsonOfItem (metadataItem now record)) ]) :=
  rfl

/-- C7: every item the handler ever writes to the table has exactly
the fields `fileId`, `status`, `timestamp`, `size`, and the partition
key `fileId` is present in it, for every event and every call
outcome. -/
theorem handler_put_items_have_exact_fields (env : LambdaEnv) (now : String)
    (oc : CallOutcomes) (event : S3Event) :
    ((handler env now oc event).2.all putItemHasExactFields) = true := by
  obtain ⟨records⟩ := event
  obtain ⟨d, s⟩ := oc
  match records with
  | none => rfl
  | some [] => rfl
  | some (r :: rest) => cases d <;> cases s <;> rfl

/-- C8: records after the first have no effect: the handler's full
result (response and effect trace) is unchanged by replacing the tail
of `Records`, and the success body is derived from the first record's
key. -/
theorem handler_uses_only_first_record (env : LambdaEnv) (now : String)
    (oc : CallOutcomes) (record : S3EventRecord)
    (rest rest' : List S3EventRecord) :
    handler env now oc ⟨some (record :: rest)⟩ =
      handler env now oc ⟨some (record :: rest')⟩ ∧
    (handler env now ⟨true, true⟩ ⟨some (record :: rest)⟩).1.body =
      successBody record.s3.object.key :=
  ⟨rfl, rfl⟩

/-- C9: for every well-formed event, the bodies sent to the queue are
exactly the JSON serializations of the items written to the table in
the same invocation, in the same order. -/
theorem sent_bodies_are_json_of_put_items (env : LambdaEnv) (now : String)
    (record : S3EventRecord) (rest : List S3EventRecord) :
    sentBodies (handler env now ⟨true, true⟩ ⟨some (record :: rest)⟩).2 =
      (putItems (handler env now ⟨true, true⟩ ⟨some (record :: rest)⟩).2).map
        jsonOfItem :=
  rfl

/-- C10: for every malformed event (`Records` missing or empty), the
handler returns the 400 response with an empty effect trace: no item
is written and no message is sent. -/
theorem handler_malformed_no_effects (env : LambdaEnv) (now : String)
    (oc : CallOutcomes) :
    handler env now oc ⟨none⟩ =
      ({ statusCode := 400, body := invalidEventBody }, []) ∧
    handler env now oc ⟨some []⟩ =
      ({ statusCode := 400, body := invalidEventBody }, []) :=
  ⟨rfl, rfl⟩
